import Mathlib

/-!
Verification development for the telinkpp Telink-mesh protocol client
(`src/telink_mesh.h`).  Bytes are modelled as natural numbers reduced
modulo 256 and byte strings as `List Nat`.  Only the class declaration
(`telink_mesh.h`) is present in the sources; the member-function bodies
live in a translation unit that is not part of the source tree, so those
operations are modelled from the specification, as indicated in each
doc-string.
-/

/-- Command codes, from the registry in `telink_mesh.h` (lines 28-42). -/
def COMMAND_OTA_UPDATE : Nat := 0xC6

/-- Command code from `telink_mesh.h`. -/
def COMMAND_QUERY_OTA_STATE : Nat := 0xC7

/-- Command code from `telink_mesh.h`. -/
def COMMAND_OTA_STATUS_REPORT : Nat := 0xC8

/-- Command code from `telink_mesh.h`. -/
def COMMAND_GROUP_ID_QUERY : Nat := 0xDD

/-- Command code from `telink_mesh.h`. -/
def COMMAND_GROUP_ID_REPORT : Nat := 0xD4

/-- Command code from `telink_mesh.h`. -/
def COMMAND_GROUP_EDIT : Nat := 0xD7

/-- Command code from `telink_mesh.h`. -/
def COMMAND_ONLINE_STATUS_REPORT : Nat := 0xDC

/-- Command code from `telink_mesh.h`. -/
def COMMAND_ADDRESS_EDIT : Nat := 0xE0

/-- Command code from `telink_mesh.h`. -/
def COMMAND_ADDRESS_REPORT : Nat := 0xE1

/-- Command code from `telink_mesh.h`. -/
def COMMAND_RESET : Nat := 0xE3

/-- Command code from `telink_mesh.h`. -/
def COMMAND_TIME_QUERY : Nat := 0xE8

/-- Command code from `telink_mesh.h`. -/
def COMMAND_TIME_REPORT : Nat := 0xE9

/-- Command code from `telink_mesh.h`. -/
def COMMAND_TIME_SET : Nat := 0xE4

/-- Command code from `telink_mesh.h`. -/
def COMMAND_DEVICE_INFO_QUERY : Nat := 0xEA

/-- Command code from `telink_mesh.h`. -/
def COMMAND_DEVICE_INFO_REPORT : Nat := 0xEB

/-- The command codes of the six report commands registered in
`telink_mesh.h` (the `COMMAND_*_REPORT` entries of the registry at lines
28-42): OTA status 0xC8, group id 0xD4, online status 0xDC, address
0xE1, time 0xE9 and device info 0xEB. -/
def known_report_codes : List Nat :=
  [COMMAND_OTA_STATUS_REPORT, COMMAND_GROUP_ID_REPORT,
   COMMAND_ONLINE_STATUS_REPORT, COMMAND_ADDRESS_REPORT,
   COMMAND_TIME_REPORT, COMMAND_DEVICE_INFO_REPORT]

/-- Error kinds of the protocol core, from spec section 7. -/
inductive MeshError where
  | InvalidCredentials
  | PairingNonceError
  | InvalidFrameLength
  | PayloadTooLarge
  | NoActiveSession
deriving DecidableEq

/-- Modelled from the spec: the body of `encrypt_packet` (declared at
`telink_mesh.h` line 144) is in the missing translation unit.  The spec
(section 4.2) describes the transform as a keyed byte
substitution/permutation network using key-derived round constants, and
fixes only its contract (total on well-formed input, inverted exactly by
`decrypt_packet`).  We model one byte of the transform: an additive
round keyed by the key byte at position `i mod 16`, followed by an XOR
round keyed by the key byte at position `(i+3) mod 16`. -/
def enc_byte (key : List Nat) (i : Nat) (b : Nat) : Nat :=
  ((b + key.getD (i % 16) 0 % 256) % 256) ^^^ (key.getD ((i + 3) % 16) 0 % 256)

/-- Modelled from the spec: the exact inverse of `enc_byte`, one byte of
the `decrypt_packet` transform (declared at `telink_mesh.h` line 151):
the XOR round is undone first, then the additive round. -/
def dec_byte (key : List Nat) (i : Nat) (c : Nat) : Nat :=
  ((c ^^^ (key.getD ((i + 3) % 16) 0 % 256)) + (256 - key.getD (i % 16) 0 % 256)) % 256

/-- Modelled from the spec: application of the keyed byte transform to a
byte string, starting at byte index `i`. -/
def encrypt_from (key : List Nat) (i : Nat) : List Nat → List Nat
  | [] => []
  | b :: rest => enc_byte key i b :: encrypt_from key (i + 1) rest

/-- Modelled from the spec: inverse transform of `encrypt_from`. -/
def decrypt_from (key : List Nat) (i : Nat) : List Nat → List Nat
  | [] => []
  | c :: rest => dec_byte key i c :: decrypt_from key (i + 1) rest

/-- Modelled from the spec: `encrypt_packet` (`telink_mesh.h` line 144),
the Frame Codec encryption direction of spec section 4.2. -/
def encrypt_packet (key : List Nat) (packet : List Nat) : List Nat :=
  encrypt_from key 0 packet

/-- Modelled from the spec: `decrypt_packet` (`telink_mesh.h` line 151),
the Frame Codec decryption direction of spec section 4.2. -/
def decrypt_packet (key : List Nat) (packet : List Nat) : List Nat :=
  decrypt_from key 0 packet

lemma dec_byte_enc_byte (key : List Nat) (i : Nat) (b : Nat) (hb : b < 256) :
    dec_byte key i (enc_byte key i b) = b := by
  unfold dec_byte enc_byte
  rw [Nat.xor_assoc, Nat.xor_self, Nat.xor_zero]
  rw [Nat.mod_add_mod]
  have hk : key.getD (i % 16) 0 % 256 < 256 := Nat.mod_lt _ (by norm_num)
  omega

lemma decrypt_from_encrypt_from (key : List Nat) (i : Nat) (xs : List Nat)
    (hx : ∀ b ∈ xs, b < 256) :
    decrypt_from key i (encrypt_from key i xs) = xs := by
  induction xs generalizing i with
  | nil => rfl
  | cons b rest ih =>
      simp only [encrypt_from, decrypt_from]
      rw [dec_byte_enc_byte key i b (hx b (List.mem_cons_self b rest)),
        ih (i + 1) (fun c hc => hx c (List.mem_cons_of_mem b hc))]

lemma encrypt_from_length (key : List Nat) (i : Nat) (xs : List Nat) :
    (encrypt_from key i xs).length = xs.length := by
  induction xs generalizing i with
  | nil => rfl
  | cons b rest ih => simp [encrypt_from, ih]

/-- C1: for every 16-byte key and every 20-byte cleartext frame (all
entries bytes), decrypting the encryption of the frame under the same
key yields the frame back: the Frame Codec round-trip law. -/
theorem codec_round_trip (key x : List Nat)
    (hk : key.length = 16) (hx : x.length = 20) (hb : ∀ b ∈ x, b < 256) :
    decrypt_packet key (encrypt_packet key x) = x :=
  decrypt_from_encrypt_from key 0 x hb

/-- Witness for C1 at a concrete key and cleartext frame. -/
theorem codec_round_trip_witness :
    ([1, 2, 3, 4, 5, 6, 7, 8, 9, 10, 11, 12, 13, 14, 15, 16] : List Nat).length = 16 ∧
    ([200, 31, 0, 255, 17, 42, 99, 1, 2, 3, 254, 128, 64, 32, 16, 8, 4, 2, 1, 0] : List Nat).length = 20 ∧
    decrypt_packet [1, 2, 3, 4, 5, 6, 7, 8, 9, 10, 11, 12, 13, 14, 15, 16]
      (encrypt_packet [1, 2, 3, 4, 5, 6, 7, 8, 9, 10, 11, 12, 13, 14, 15, 16]
        [200, 31, 0, 255, 17, 42, 99, 1, 2, 3, 254, 128, 64, 32, 16, 8, 4, 2, 1, 0]) =
      [200, 31, 0, 255, 17, 42, 99, 1, 2, 3, 254, 128, 64, 32, 16, 8, 4, 2, 1, 0] :=
  ⟨rfl, rfl,
    codec_round_trip _ _ rfl rfl (by decide)⟩

/-- Session and addressing state of a `TelinkMesh` object, from the data
members declared in `telink_mesh.h` lines 57-117 (the radio-link handles
are out of scope per spec section 1).  `shared_key` is `none` while no
session key has been derived, matching the empty `std::string` initial
state of the `shared_key` member.  The sequence counter is kept reduced
modulo 2^16 per spec section 3 (SequenceCounter is a 16-bit unsigned
integer). -/
structure MeshState where
  address : List Nat
  reverse_address : List Nat
  name : List Nat
  password : List Nat
  shared_key : Option (List Nat)
  vendor : Nat
  mesh_id : Nat
  packet_count : Nat
deriving DecidableEq

/-- Modelled from the spec: the `reverse_address` member
(`telink_mesh.h` line 67) holds the MAC address formatted for
little-endianness, i.e. the byte-reversed form used on the wire (spec
section 3, DeviceIdentity). -/
def make_reverse_address (addr : List Nat) : List Nat :=
  addr.reverse

/-- The state of a freshly constructed `TelinkMesh` object: the
in-class initializers of `telink_mesh.h` give `vendor = 0x211` (line
87), `mesh_id = 0` (line 92) and `packet_count = 1` (line 97); the
constructor (line 187) stores address, name and password, and no
session key exists before pairing. -/
def initial_state (addr name password : List Nat) : MeshState :=
  { address := addr
    reverse_address := make_reverse_address addr
    name := name
    password := password
    shared_key := none
    vendor := 0x211
    mesh_id := 0
    packet_count := 1 }

/-- Modelled from the spec: truncation/zero-padding of a credential
field to its fixed width (spec section 4.1: shorter values are
zero-padded, longer values are truncated). -/
def pad_trunc (xs : List Nat) (n : Nat) : List Nat :=
  xs.take n ++ List.replicate (n - xs.length) 0

/-- Modelled from the spec: `combine_name_and_password`
(`telink_mesh.h` line 123) is in the missing translation unit.  Spec
section 4.1: name and password are combined into a fixed 16-byte
buffer, each field occupying a fixed sub-range (8 bytes each), shorter
values zero-padded. -/
def combine_name_and_password (name password : List Nat) : List Nat :=
  pad_trunc name 8 ++ pad_trunc password 8

/-- Modelled from the spec: `generate_shared_key` (`telink_mesh.h` line
130), i.e. spec section 4.1 `derive_session_key`: rejects credentials
exceeding their fixed 8-byte field width with `InvalidCredentials`,
rejects nonces that are not exactly 8 bytes with `PairingNonceError`,
otherwise encrypts the concatenation of the two nonces with the
combined name/password buffer as key, through the Frame Codec
primitive. -/
def derive_session_key (name password data1 data2 : List Nat) :
    Except MeshError (List Nat) :=
  if name.length > 8 ∨ password.length > 8 then .error .InvalidCredentials
  else if data1.length = 8 ∧ data2.length = 8 then
    .ok (encrypt_packet (combine_name_and_password name password) (data1 ++ data2))
  else .error .PairingNonceError

/-- Modelled from the spec: the cleartext frame layout of spec section
3: sequence[2] (little-endian) | command[1] | vendor-or-reserved[1] |
reversed-address[6] | payload[10] (zero-padded).  This is the frame
`build_packet` (`telink_mesh.h` line 159) assembles before encrypting
it. -/
def build_cleartext (count vendor command : Nat)
    (rev_addr payload : List Nat) : List Nat :=
  [count % 256, count / 256 % 256, command % 256, vendor % 256] ++
    rev_addr ++ (payload ++ List.replicate (10 - payload.length) 0)

/-- Modelled from the spec: `build_packet` (`telink_mesh.h` line 159),
spec section 4.3: fails with `PayloadTooLarge` on a payload longer than
10 bytes, fails with `NoActiveSession` when no session key has been
derived, otherwise lays out the cleartext frame, encrypts it with the
live session key, and increments the sequence counter by exactly 1
modulo 2^16. -/
def build_packet (st : MeshState) (command : Nat) (data : List Nat) :
    Except MeshError (List Nat × MeshState) :=
  if data.length > 10 then .error .PayloadTooLarge
  else
    match st.shared_key with
    | none => .error .NoActiveSession
    | some key =>
        .ok (encrypt_packet key
              (build_cleartext st.packet_count st.vendor command
                st.reverse_address data),
             { st with packet_count := (st.packet_count + 1) % 65536 })

/-- Typed decoded view of an inbound frame, from spec section 3
(Report): one of time, address, device-info, group-id, online-status,
or `unrecognized` carrying the raw command byte and payload. -/
inductive Report where
  | timeReport (payload : List Nat)
  | addressReport (payload : List Nat)
  | deviceInfoReport (payload : List Nat)
  | groupIdReport (payload : List Nat)
  | onlineStatusReport (payload : List Nat)
  | unrecognized (command : Nat) (payload : List Nat)
deriving DecidableEq

/-- Modelled from the spec: the dispatch performed by `parse_command`
(`telink_mesh.h` line 173) on a decrypted inbound frame, as a function
of the frame's command byte and payload.  Spec section 4.4 routes the
five typed report codes (time 0xE9, address 0xE1, device-info 0xEB,
group-id 0xD4, online-status 0xDC) to their dedicated parsers; any
other command byte yields `unrecognized` with the raw command byte and
payload, never an error. -/
def parse_command (command : Nat) (payload : List Nat) : Report :=
  if command = COMMAND_TIME_REPORT then .timeReport payload
  else if command = COMMAND_ADDRESS_REPORT then .addressReport payload
  else if command = COMMAND_DEVICE_INFO_REPORT then .deviceInfoReport payload
  else if command = COMMAND_GROUP_ID_REPORT then .groupIdReport payload
  else if command = COMMAND_ONLINE_STATUS_REPORT then .onlineStatusReport payload
  else .unrecognized command payload

/-- The overridable per-report parser hooks declared `virtual` in
`telink_mesh.h`: `parse_time_report` (line 293), `parse_address_report`
(line 299), `parse_device_info_report` (line 305) and
`parse_group_id_report` (line 311).  These four are the only virtual
per-report parser members of the class; in particular there is no
`parse_online_status_report` hook. -/
inductive ReportHook where
  | timeHook
  | addressHook
  | deviceInfoHook
  | groupIdHook
deriving DecidableEq

/-- Modelled from the spec: which overridable per-report hook the
dispatch of `parse_command` invokes for a given command byte.  The four
virtual hooks of `telink_mesh.h` cover time, address, device-info and
group-id reports; the online-status report (0xDC) has no virtual hook
and is handled inline within `parse_command`, and unrecognized command
bytes invoke no hook. -/
def hook_for_command (command : Nat) : Option ReportHook :=
  if command = COMMAND_TIME_REPORT then some .timeHook
  else if command = COMMAND_ADDRESS_REPORT then some .addressHook
  else if command = COMMAND_DEVICE_INFO_REPORT then some .deviceInfoHook
  else if command = COMMAND_GROUP_ID_REPORT then some .groupIdHook
  else none

/-- Modelled from the spec: `set_address` (`telink_mesh.h` line 195)
replaces the MAC address and its reversed form; per spec section 3
(DeviceIdentity), replacing any connection parameter invalidates any
derived session key. -/
def set_address (st : MeshState) (addr : List Nat) : MeshState :=
  { st with address := addr, reverse_address := make_reverse_address addr,
            shared_key := none }

/-- Modelled from the spec: `set_name` (`telink_mesh.h` line 201)
replaces the device name; replacing any connection parameter
invalidates any derived session key (spec section 3). -/
def set_name (st : MeshState) (name : List Nat) : MeshState :=
  { st with name := name, shared_key := none }

/-- Modelled from the spec: `set_password` (`telink_mesh.h` line 207)
replaces the device password; replacing any connection parameter
invalidates any derived session key (spec section 3). -/
def set_password (st : MeshState) (password : List Nat) : MeshState :=
  { st with password := password, shared_key := none }

/-- Modelled from the spec: `set_vendor` (`telink_mesh.h` line 213)
stores the Bluetooth vendor code. -/
def set_vendor (st : MeshState) (vendor : Nat) : MeshState :=
  { st with vendor := vendor }

/-- Modelled from the spec: `send_packet` (`telink_mesh.h` line 220)
builds a command packet and hands it to the transport; transmission is
out of scope, so its effect on the session state is the builder's
effect, and a failed build leaves the state unchanged. -/
def send_packet (st : MeshState) (command : Nat) (data : List Nat) : MeshState :=
  match build_packet st command data with
  | .ok (_, st') => st'
  | .error _ => st

/-- Modelled from the spec: `set_mesh_id` (`telink_mesh.h` line 273)
sends an address-edit command (code 0xE0) carrying the requested mesh
id; the cached `mesh_id` member is updated only when the device's
address report is parsed (spec section 4.4: the address report carries
the resulting MeshAddress after an edit). -/
def set_mesh_id (st : MeshState) (id : Nat) : MeshState :=
  send_packet st COMMAND_ADDRESS_EDIT [id % 256, id / 256 % 256]

/-- Modelled from the spec: the session-state feedback of an address
report (spec section 4.4): parsing an address report updates the cached
mesh address. -/
def handle_address_report (st : MeshState) (payload : List Nat) : MeshState :=
  { st with mesh_id := payload.getD 0 0 + 256 * payload.getD 1 0 }

/-- Operations available on a `TelinkMesh` object before any address
report has been received: the public mutators and packet-sending
members of `telink_mesh.h` (`handle_address_report` is deliberately not
among them). -/
inductive MeshOp where
  | opSetAddress (addr : List Nat)
  | opSetName (name : List Nat)
  | opSetPassword (password : List Nat)
  | opSetVendor (vendor : Nat)
  | opSend (command : Nat) (data : List Nat)
  | opSetMeshId (id : Nat)

/-- Effect of one operation on the session state. -/
def apply_op (st : MeshState) : MeshOp → MeshState
  | .opSetAddress addr => set_address st addr
  | .opSetName name => set_name st name
  | .opSetPassword password => set_password st password
  | .opSetVendor vendor => set_vendor st vendor
  | .opSend command data => send_packet st command data
  | .opSetMeshId id => set_mesh_id st id

/-- Effect of a sequence of operations on the session state. -/
def apply_ops (st : MeshState) : List MeshOp → MeshState
  | [] => st
  | op :: rest => apply_ops (apply_op st op) rest

/-- A valid MeshAddress per spec section 3: an individual device
address in [1, 254] or a group address in [0x8000, 0x80FF]. -/
def valid_mesh_address (a : Nat) : Prop :=
  (1 ≤ a ∧ a ≤ 254) ∨ (0x8000 ≤ a ∧ a ≤ 0x80FF)

instance (a : Nat) : Decidable (valid_mesh_address a) := by
  unfold valid_mesh_address
  infer_instance

/-- Modelled from the spec: the inbound path (spec section 4.4
`on_inbound`, realized by `notification_callback` together with
`parse_command` in `telink_mesh.h`): the raw frame is decrypted via the
Frame Codec using the live session key, then dispatched on the command
byte (byte 2 of the cleartext layout) with the 10-byte payload (bytes
10-19); with no session key no frame may be decrypted (spec section 3,
the SessionKey central invariant). -/
def on_inbound (st : MeshState) (packet : List Nat) : Except MeshError Report :=
  match st.shared_key with
  | none => .error .NoActiveSession
  | some key =>
      .ok (parse_command ((decrypt_packet key packet).getD 2 0)
            ((decrypt_packet key packet).drop 10))

lemma build_packet_ok (st : MeshState) (command : Nat) (data : List Nat)
    (key : List Nat) (hk : st.shared_key = some key) (hd : data.length ≤ 10) :
    build_packet st command data =
      .ok (encrypt_packet key
            (build_cleartext st.packet_count st.vendor command
              st.reverse_address data),
           { st with packet_count := (st.packet_count + 1) % 65536 }) := by
  unfold build_packet
  rw [if_neg (by omega), hk]

lemma build_packet_ok_inv (st : MeshState) (command : Nat) (data : List Nat)
    (pkt : List Nat) (st' : MeshState)
    (hb : build_packet st command data = .ok (pkt, st')) :
    ∃ key, st.shared_key = some key ∧ data.length ≤ 10 ∧
      pkt = encrypt_packet key
        (build_cleartext st.packet_count st.vendor command
          st.reverse_address data) ∧
      st' = { st with packet_count := (st.packet_count + 1) % 65536 } := by
  unfold build_packet at hb
  by_cases h10 : data.length > 10
  · rw [if_pos h10] at hb
    exact absurd hb (by simp)
  · rw [if_neg h10] at hb
    cases hkey : st.shared_key with
    | none =>
        rw [hkey] at hb
        exact absurd hb (by simp)
    | some key =>
        rw [hkey] at hb
        simp only [Except.ok.injEq, Prod.mk.injEq] at hb
        exact ⟨key, rfl, by omega, hb.1.symm, hb.2.symm⟩

lemma build_packet_none (st : MeshState) (command : Nat) (data : List Nat)
    (hk : st.shared_key = none) (pkt : List Nat) (st' : MeshState) :
    build_packet st command data ≠ .ok (pkt, st') := by
  intro h
  obtain ⟨key, hkey, -, -, -⟩ := build_packet_ok_inv st command data pkt st' h
  rw [hk] at hkey
  exact Option.noConfusion hkey

lemma build_cleartext_layout (count vendor command : Nat)
    (rev payload : List Nat) (ha : rev.length = 6) (hp : payload.length ≤ 10) :
    (build_cleartext count vendor command rev payload).length = 20 ∧
    (build_cleartext count vendor command rev payload).take 2 =
      [count % 256, count / 256 % 256] ∧
    (build_cleartext count vendor command rev payload).getD 2 0 = command % 256 ∧
    (build_cleartext count vendor command rev payload).getD 3 0 = vendor % 256 ∧
    ((build_cleartext count vendor command rev payload).drop 4).take 6 = rev ∧
    (build_cleartext count vendor command rev payload).drop 10 =
      payload ++ List.replicate (10 - payload.length) 0 := by
  refine ⟨?_, rfl, rfl, rfl, ?_, ?_⟩
  · simp only [build_cleartext, List.length_append, List.length_replicate,
      List.length_cons, List.length_nil, ha]
    omega
  · show (rev ++ (payload ++ List.replicate (10 - payload.length) 0)).take 6 = rev
    rw [← ha]
    exact List.take_left rev _
  · show (rev ++ (payload ++ List.replicate (10 - payload.length) 0)).drop 6 = _
    rw [← ha]
    exact List.drop_left rev _

/-- C2: every successful `build_packet` call encrypts a cleartext frame
of exactly 20 bytes laid out as sequence counter (little-endian) in
bytes 0-1, command byte in byte 2, vendor byte in byte 3, the reversed
6-byte address in bytes 4-9 and the zero-padded payload in bytes
10-19. -/
theorem frame_layout (st : MeshState) (command : Nat) (payload : List Nat)
    (key : List Nat) (hk : st.shared_key = some key)
    (ha : st.reverse_address.length = 6) (hp : payload.length ≤ 10)
    (hc : command < 256) :
    ∃ clear,
      clear = build_cleartext st.packet_count st.vendor command
        st.reverse_address payload ∧
      build_packet st command payload =
        .ok (encrypt_packet key clear,
             { st with packet_count := (st.packet_count + 1) % 65536 }) ∧
      clear.length = 20 ∧
      clear.take 2 = [st.packet_count % 256, st.packet_count / 256 % 256] ∧
      clear.getD 2 0 = command ∧
      clear.getD 3 0 = st.vendor % 256 ∧
      (clear.drop 4).take 6 = st.reverse_address ∧
      clear.drop 10 = payload ++ List.replicate (10 - payload.length) 0 := by
  obtain ⟨h20, ht2, hg2, hg3, haddr, hpay⟩ :=
    build_cleartext_layout st.packet_count st.vendor command
      st.reverse_address payload ha hp
  exact ⟨_, rfl, build_packet_ok st command payload key hk hp, h20, ht2,
    by rw [hg2, Nat.mod_eq_of_lt hc], hg3, haddr, hpay⟩

/-- A sample connected state used by the concrete witnesses: device at
MAC AA:BB:CC:DD:EE:FF, with a derived all-zero session key and the
sequence counter at its 16-bit maximum. -/
def wit_state : MeshState :=
  { initial_state [0xAA, 0xBB, 0xCC, 0xDD, 0xEE, 0xFF] [68, 101, 118] [112, 97, 115] with
      shared_key := some (List.replicate 16 0)
      packet_count := 65535 }

/-- Witness for C2 at the concrete state `wit_state`. -/
theorem frame_layout_witness :
    wit_state.shared_key = some (List.replicate 16 0) ∧
    wit_state.reverse_address.length = 6 ∧
    ∃ clear,
      clear = build_cleartext wit_state.packet_count wit_state.vendor
        COMMAND_TIME_QUERY wit_state.reverse_address [3, 1] ∧
      build_packet wit_state COMMAND_TIME_QUERY [3, 1] =
        .ok (encrypt_packet (List.replicate 16 0) clear,
             { wit_state with packet_count := (wit_state.packet_count + 1) % 65536 }) ∧
      clear.length = 20 ∧
      clear.take 2 = [wit_state.packet_count % 256, wit_state.packet_count / 256 % 256] ∧
      clear.getD 2 0 = COMMAND_TIME_QUERY ∧
      clear.getD 3 0 = wit_state.vendor % 256 ∧
      (clear.drop 4).take 6 = wit_state.reverse_address ∧
      clear.drop 10 = [3, 1] ++ List.replicate (10 - ([3, 1] : List Nat).length) 0 :=
  ⟨rfl, rfl,
    frame_layout wit_state COMMAND_TIME_QUERY [3, 1] (List.replicate 16 0)
      rfl rfl (by decide) (by decide)⟩

/-- C3: every successful `build_packet` call increments the sequence
counter by exactly 1 modulo 65536, whatever its starting value;
transmission happens only after the build, so the increment is
independent of later transmission failures. -/
theorem seq_increment (st : MeshState) (command : Nat) (data : List Nat)
    (pkt : List Nat) (st' : MeshState)
    (hb : build_packet st command data = .ok (pkt, st')) :
    st'.packet_count = (st.packet_count + 1) % 65536 := by
  obtain ⟨key, -, -, -, hst⟩ := build_packet_ok_inv st command data pkt st' hb
  rw [hst]

/-- Witness for C3 at the boundary value 65535: the counter of
`wit_state` is 65535 and after one successful build it is 0. -/
theorem seq_increment_witness :
    wit_state.packet_count = 65535 ∧
    ({ wit_state with packet_count := 0 } : MeshState).packet_count = 0 ∧
    ({ wit_state with packet_count := 0 } : MeshState).packet_count =
      (wit_state.packet_count + 1) % 65536 :=
  ⟨rfl, rfl,
    seq_increment wit_state COMMAND_TIME_QUERY []
      (encrypt_packet (List.replicate 16 0)
        (build_cleartext wit_state.packet_count wit_state.vendor
          COMMAND_TIME_QUERY wit_state.reverse_address []))
      { wit_state with packet_count := 0 }
      (build_packet_ok wit_state COMMAND_TIME_QUERY [] (List.replicate 16 0)
        rfl (by decide))⟩

lemma encrypt_packet_length (key xs : List Nat) :
    (encrypt_packet key xs).length = xs.length :=
  encrypt_from_length key 0 xs

/-- C4: for every name and password within their 8-byte field widths
and every pair of 8-byte nonces, the derived session key is the
encryption of the concatenated nonces under the fixed-width combined
name/password buffer, computed through the same Frame Codec primitive
(`encrypt_packet`), and the resulting key is 16 bytes long.  Being a
function of its inputs, the derivation is deterministic. -/
theorem session_key_derivation (name password data1 data2 : List Nat)
    (hn : name.length ≤ 8) (hp : password.length ≤ 8)
    (h1 : data1.length = 8) (h2 : data2.length = 8) :
    derive_session_key name password data1 data2 =
      .ok (encrypt_packet (combine_name_and_password name password)
            (data1 ++ data2)) ∧
    ∀ k, derive_session_key name password data1 data2 = .ok k →
      k.length = 16 := by
  have hok : derive_session_key name password data1 data2 =
      .ok (encrypt_packet (combine_name_and_password name password)
            (data1 ++ data2)) := by
    unfold derive_session_key
    rw [if_neg (by omega), if_pos ⟨h1, h2⟩]
  refine ⟨hok, fun k hk => ?_⟩
  rw [hok] at hk
  simp only [Except.ok.injEq] at hk
  rw [← hk, encrypt_packet_length, List.length_append, h1, h2]

/-- Witness for C4 with name "Dev", password "pas" and the two nonces
of the spec's scenario (8 zero bytes and 8 bytes of 0xFF). -/
theorem session_key_derivation_witness :
    ([68, 101, 118] : List Nat).length ≤ 8 ∧
    ([112, 97, 115] : List Nat).length ≤ 8 ∧
    (List.replicate 8 0).length = 8 ∧
    (List.replicate 8 255).length = 8 ∧
    derive_session_key [68, 101, 118] [112, 97, 115]
        (List.replicate 8 0) (List.replicate 8 255) =
      .ok (encrypt_packet
            (combine_name_and_password [68, 101, 118] [112, 97, 115])
            (List.replicate 8 0 ++ List.replicate 8 255)) :=
  ⟨by decide, by decide, by decide, by decide,
    (session_key_derivation [68, 101, 118] [112, 97, 115]
      (List.replicate 8 0) (List.replicate 8 255)
      (by decide) (by decide) (by decide) (by decide)).1⟩

/-- Counterexample for C5: the header's command registry contains six
report codes, but the OTA status report code 0xC8, although registered,
is not routed to any typed report parser: dispatching it yields the
`unrecognized` outcome. -/
theorem dispatch_ota_counterexample :
    COMMAND_OTA_STATUS_REPORT ∈ known_report_codes ∧
    parse_command COMMAND_OTA_STATUS_REPORT [1, 2, 3] =
      .unrecognized COMMAND_OTA_STATUS_REPORT [1, 2, 3] :=
  ⟨by decide, rfl⟩

/-- C5 (amended): the dispatcher routes each of the five typed report
command codes (time 0xE9, address 0xE1, device-info 0xEB, group-id
0xD4, online-status 0xDC) to its matching typed report and to no other;
every other command byte — including the registered OTA status report
code 0xC8 — yields the `unrecognized` outcome carrying the raw command
byte and payload, and no error is raised. -/
theorem dispatch_routing (payload : List Nat) :
    parse_command COMMAND_TIME_REPORT payload = .timeReport payload ∧
    parse_command COMMAND_ADDRESS_REPORT payload = .addressReport payload ∧
    parse_command COMMAND_DEVICE_INFO_REPORT payload = .deviceInfoReport payload ∧
    parse_command COMMAND_GROUP_ID_REPORT payload = .groupIdReport payload ∧
    parse_command COMMAND_ONLINE_STATUS_REPORT payload = .onlineStatusReport payload ∧
    ∀ c, c ∉ [COMMAND_TIME_REPORT, COMMAND_ADDRESS_REPORT,
              COMMAND_DEVICE_INFO_REPORT, COMMAND_GROUP_ID_REPORT,
              COMMAND_ONLINE_STATUS_REPORT] →
      parse_command c payload = .unrecognized c payload := by
  refine ⟨rfl, rfl, rfl, rfl, rfl, fun c hc => ?_⟩
  simp only [List.mem_cons, List.not_mem_nil, or_false, not_or] at hc
  obtain ⟨h1, h2, h3, h4, h5⟩ := hc
  unfold parse_command
  rw [if_neg h1, if_neg h2, if_neg h3, if_neg h4, if_neg h5]

/-- Witness for C5 at payload [7]: the time report code routes to the
time report and the unregistered byte 0x00 routes to `unrecognized`. -/
theorem dispatch_routing_witness :
    parse_command COMMAND_TIME_REPORT [7] = .timeReport [7] ∧
    parse_command 0 [7] = .unrecognized 0 [7] :=
  ⟨(dispatch_routing [7]).1,
    (dispatch_routing [7]).2.2.2.2.2 0 (by decide)⟩

/-- C6: a payload strictly longer than 10 bytes fails with
`PayloadTooLarge` whatever the session state; with a live session key a
payload of exactly 10 bytes succeeds; with a live session key the empty
payload succeeds and the payload field of the cleartext frame is 10
zero bytes. -/
theorem build_payload_bounds :
    (∀ st command data, 10 < data.length →
        build_packet st command data = .error .PayloadTooLarge) ∧
    (∀ st command data key, st.shared_key = some key → data.length = 10 →
        ∃ pkt st', build_packet st command data = .ok (pkt, st')) ∧
    (∀ st command key, st.shared_key = some key →
        (∃ pkt st', build_packet st command [] = .ok (pkt, st')) ∧
        build_cleartext st.packet_count st.vendor command st.reverse_address [] =
          [st.packet_count % 256, st.packet_count / 256 % 256,
           command % 256, st.vendor % 256] ++
            st.reverse_address ++ List.replicate 10 0) := by
  refine ⟨fun st command data h => ?_, fun st command data key hk hd => ?_,
    fun st command key hk => ⟨?_, rfl⟩⟩
  · unfold build_packet
    rw [if_pos h]
  · exact ⟨_, _, build_packet_ok st command data key hk (by omega)⟩
  · exact ⟨_, _, build_packet_ok st command [] key hk (by decide)⟩

/-- Witness for C6 at the concrete state `wit_state`: an 11-byte
payload fails with `PayloadTooLarge`, a 10-byte payload succeeds, and
the empty payload succeeds with a zero payload field. -/
theorem build_payload_bounds_witness :
    build_packet wit_state COMMAND_TIME_QUERY (List.replicate 11 1) =
      .error .PayloadTooLarge ∧
    (∃ pkt st', build_packet wit_state COMMAND_TIME_QUERY (List.replicate 10 1) =
      .ok (pkt, st')) ∧
    (∃ pkt st', build_packet wit_state COMMAND_TIME_QUERY [] = .ok (pkt, st')) ∧
    build_cleartext wit_state.packet_count wit_state.vendor COMMAND_TIME_QUERY
        wit_state.reverse_address [] =
      [wit_state.packet_count % 256, wit_state.packet_count / 256 % 256,
       COMMAND_TIME_QUERY % 256, wit_state.vendor % 256] ++
        wit_state.reverse_address ++ List.replicate 10 0 :=
  ⟨build_payload_bounds.1 wit_state COMMAND_TIME_QUERY (List.replicate 11 1)
      (by decide),
    build_payload_bounds.2.1 wit_state COMMAND_TIME_QUERY (List.replicate 10 1)
      (List.replicate 16 0) rfl (by decide),
    (build_payload_bounds.2.2 wit_state COMMAND_TIME_QUERY
      (List.replicate 16 0) rfl).1,
    (build_payload_bounds.2.2 wit_state COMMAND_TIME_QUERY
      (List.replicate 16 0) rfl).2⟩

/-- C7: while no session key has been derived, `build_packet` never
produces a frame, and (whenever the payload is within the 10-byte
bound, so that the payload precondition does not fail first) it fails
with `NoActiveSession`. -/
theorem no_session_no_frame (st : MeshState) (command : Nat) (data : List Nat)
    (hk : st.shared_key = none) :
    (∀ pkt st', build_packet st command data ≠ .ok (pkt, st')) ∧
    (data.length ≤ 10 →
      build_packet st command data = .error .NoActiveSession) := by
  refine ⟨build_packet_none st command data hk, fun hd => ?_⟩
  unfold build_packet
  rw [if_neg (by omega), hk]

/-- Witness for C7 in the freshly constructed state, which has no
session key. -/
theorem no_session_no_frame_witness :
    (initial_state [0xAA, 0xBB, 0xCC, 0xDD, 0xEE, 0xFF] [] []).shared_key = none ∧
    ([] : List Nat).length ≤ 10 ∧
    build_packet (initial_state [0xAA, 0xBB, 0xCC, 0xDD, 0xEE, 0xFF] [] [])
        COMMAND_TIME_QUERY [] = .error .NoActiveSession :=
  ⟨rfl, by decide,
    (no_session_no_frame (initial_state [0xAA, 0xBB, 0xCC, 0xDD, 0xEE, 0xFF] [] [])
      COMMAND_TIME_QUERY [] rfl).2 (by decide)⟩

lemma on_inbound_none (st : MeshState) (packet : List Nat)
    (hk : st.shared_key = none) :
    on_inbound st packet = .error .NoActiveSession := by
  unfold on_inbound
  rw [hk]

/-- C8: replacing any connection parameter (name, password or address)
via its setter invalidates the derived session key: the stored key
becomes `none`, so after any such setter call no frame can be encrypted
(every `build_packet` call fails) and no frame can be decrypted (every
`on_inbound` call fails with `NoActiveSession`). -/
theorem setter_invalidates_key (st : MeshState) (name password addr : List Nat) :
    (set_name st name).shared_key = none ∧
    (set_password st password).shared_key = none ∧
    (set_address st addr).shared_key = none ∧
    (∀ command data pkt st₂,
      build_packet (set_name st name) command data ≠ .ok (pkt, st₂) ∧
      build_packet (set_password st password) command data ≠ .ok (pkt, st₂) ∧
      build_packet (set_address st addr) command data ≠ .ok (pkt, st₂)) ∧
    (∀ packet,
      on_inbound (set_name st name) packet = .error .NoActiveSession ∧
      on_inbound (set_password st password) packet = .error .NoActiveSession ∧
      on_inbound (set_address st addr) packet = .error .NoActiveSession) :=
  ⟨rfl, rfl, rfl,
    fun command data pkt st₂ =>
      ⟨build_packet_none _ command data rfl pkt st₂,
       build_packet_none _ command data rfl pkt st₂,
       build_packet_none _ command data rfl pkt st₂⟩,
    fun packet =>
      ⟨on_inbound_none _ packet rfl, on_inbound_none _ packet rfl,
       on_inbound_none _ packet rfl⟩⟩

/-- Witness for C8 starting from the connected state `wit_state`, whose
session key is present before the setter call. -/
theorem setter_invalidates_key_witness :
    wit_state.shared_key = some (List.replicate 16 0) ∧
    (set_name wit_state [5]).shared_key = none ∧
    on_inbound (set_password wit_state [6]) (List.replicate 20 0) =
      .error .NoActiveSession :=
  ⟨rfl,
    (setter_invalidates_key wit_state [5] [6] []).1,
    ((setter_invalidates_key wit_state [5] [6] []).2.2.2.2
      (List.replicate 20 0)).2.1⟩

lemma build_packet_mesh_id (st : MeshState) (command : Nat) (data : List Nat)
    (pkt : List Nat) (st' : MeshState)
    (hb : build_packet st command data = .ok (pkt, st')) :
    st'.mesh_id = st.mesh_id := by
  obtain ⟨key, -, -, -, hst⟩ := build_packet_ok_inv st command data pkt st' hb
  rw [hst]

lemma send_packet_mesh_id (st : MeshState) (command : Nat) (data : List Nat) :
    (send_packet st command data).mesh_id = st.mesh_id := by
  unfold send_packet
  cases hb : build_packet st command data with
  | ok r => exact build_packet_mesh_id st command data r.1 r.2 (by rw [hb])
  | error e => rfl

lemma apply_op_mesh_id (st : MeshState) (op : MeshOp) :
    (apply_op st op).mesh_id = st.mesh_id := by
  cases op with
  | opSetAddress addr => rfl
  | opSetName name => rfl
  | opSetPassword password => rfl
  | opSetVendor vendor => rfl
  | opSend command data => exact send_packet_mesh_id st command data
  | opSetMeshId id => exact send_packet_mesh_id st COMMAND_ADDRESS_EDIT _

lemma apply_ops_mesh_id (st : MeshState) (ops : List MeshOp) :
    (apply_ops st ops).mesh_id = st.mesh_id := by
  induction ops generalizing st with
  | nil => rfl
  | cons op rest ih => rw [apply_ops, ih, apply_op_mesh_id]

/-- C9: from a freshly constructed `TelinkMesh` object, any sequence of
public operations that does not include the parsing of an address
report — setters, packet sends, and `set_mesh_id` (which only sends the
address-edit command) — leaves the cached `mesh_id` at its initial
value 0, which lies outside both valid MeshAddress ranges [1, 254] and
[0x8000, 0x80FF]. -/
theorem fresh_mesh_id_invalid (addr name password : List Nat) (ops : List MeshOp) :
    (apply_ops (initial_state addr name password) ops).mesh_id = 0 ∧
    ¬ valid_mesh_address
        (apply_ops (initial_state addr name password) ops).mesh_id := by
  have h0 : (apply_ops (initial_state addr name password) ops).mesh_id = 0 :=
    apply_ops_mesh_id (initial_state addr name password) ops
  refine ⟨h0, ?_⟩
  rw [h0]
  decide

/-- Witness for C9 on a concrete trace including a `set_mesh_id`
request and a name change. -/
theorem fresh_mesh_id_invalid_witness :
    (apply_ops (initial_state [0xAA, 0xBB, 0xCC, 0xDD, 0xEE, 0xFF] [1] [2])
      [.opSetMeshId 5, .opSetName [9]]).mesh_id = 0 ∧
    ¬ valid_mesh_address
        (apply_ops (initial_state [0xAA, 0xBB, 0xCC, 0xDD, 0xEE, 0xFF] [1] [2])
          [.opSetMeshId 5, .opSetName [9]]).mesh_id :=
  fresh_mesh_id_invalid [0xAA, 0xBB, 0xCC, 0xDD, 0xEE, 0xFF] [1] [2]
    [.opSetMeshId 5, .opSetName [9]]

/-- C10: the online-status report code 0xDC is dispatched to an inline
outcome of `parse_command` and invokes no overridable per-report hook;
the only virtual per-report parser hooks declared in `telink_mesh.h`
are those for time, address, device-info and group-id reports. -/
theorem online_status_inline (payload : List Nat) :
    hook_for_command COMMAND_ONLINE_STATUS_REPORT = none ∧
    parse_command COMMAND_ONLINE_STATUS_REPORT payload =
      .onlineStatusReport payload ∧
    (∀ c h, hook_for_command c = some h →
      c = COMMAND_TIME_REPORT ∨ c = COMMAND_ADDRESS_REPORT ∨
      c = COMMAND_DEVICE_INFO_REPORT ∨ c = COMMAND_GROUP_ID_REPORT) ∧
    (∀ h : ReportHook, h = .timeHook ∨ h = .addressHook ∨
      h = .deviceInfoHook ∨ h = .groupIdHook) := by
  refine ⟨rfl, rfl, fun c h hc => ?_, fun h => ?_⟩
  · unfold hook_for_command at hc
    by_cases h1 : c = COMMAND_TIME_REPORT
    · exact Or.inl h1
    by_cases h2 : c = COMMAND_ADDRESS_REPORT
    · exact Or.inr (Or.inl h2)
    by_cases h3 : c = COMMAND_DEVICE_INFO_REPORT
    · exact Or.inr (Or.inr (Or.inl h3))
    by_cases h4 : c = COMMAND_GROUP_ID_REPORT
    · exact Or.inr (Or.inr (Or.inr h4))
    rw [if_neg h1, if_neg h2, if_neg h3, if_neg h4] at hc
    exact Option.noConfusion hc
  · cases h with
    | timeHook => exact Or.inl rfl
    | addressHook => exact Or.inr (Or.inl rfl)
    | deviceInfoHook => exact Or.inr (Or.inr (Or.inl rfl))
    | groupIdHook => exact Or.inr (Or.inr (Or.inr rfl))

/-- Witness for C10 at payload [1]: the time report hook exists and the
online-status code invokes no hook. -/
theorem online_status_inline_witness :
    hook_for_command COMMAND_ONLINE_STATUS_REPORT = none ∧
    (COMMAND_TIME_REPORT = COMMAND_TIME_REPORT ∨
     COMMAND_TIME_REPORT = COMMAND_ADDRESS_REPORT ∨
     COMMAND_TIME_REPORT = COMMAND_DEVICE_INFO_REPORT ∨
     COMMAND_TIME_REPORT = COMMAND_GROUP_ID_REPORT) :=
  ⟨(online_status_inline [1]).1,
    (online_status_inline [1]).2.2.1 COMMAND_TIME_REPORT .timeHook rfl⟩
